import Mathlib

/-!
Verification development for the wasm plugin host core
(src/plugin/mod.rs, src/plugin/default.rs).

The host-side control flow is embedded shallowly.  The external execution
engine (wasmer) is a used collaborator, not part of the repository: every
native guest invocation (the allocator export, the execute export, the
collector export, the entry point, pipe reads) is therefore represented by
an explicit outcome parameter, and guest linear memory by a byte list.
Host panics (`unwrap` on a failed deref, the allocator-trap abort) are
modelled as `none`; typed failures use the `PluginError` taxonomy copied
from the source.
-/

/-- Wasm value types, used to describe export signatures.  A `WasmPtr` is
an `i32` at the wasm level. -/
inductive ValType
  | i32
  | i64
  | f32
  | f64
  deriving DecidableEq, Repr

/-- Parameter and result types of an exported guest function, as checked by
`Function::native::<T, O>()`. -/
structure FuncSig where
  params : List ValType
  results : List ValType
  deriving DecidableEq, Repr

/-- The closed error taxonomy, from `enum PluginError` in src/plugin/mod.rs. -/
inductive PluginError
  | LoadingError
  | InitWasiEnvFailed
  | InstanceInitFailed
  | WasiImportObjectFailed
  | RuntimeError
  | FunctionNotFound
  | FunctionInvalidParameter
  deriving DecidableEq, Repr

/-- A guest trap raised by the engine during a native call (wasmer's
runtime-error value, before the host converts it to a `PluginError`). -/
inductive Trap
  | trap
  deriving DecidableEq, Repr

/-- `struct PluginOptions` from src/plugin/mod.rs.  The wasmer `Store` is
engine state with no observable role in the verified operations and is
omitted; `custom_exports` keeps the registered host functions as
name/signature pairs.  Note there is no field for the collector export
name. -/
structure PluginOptions where
  module_name : String
  file : String
  envs : List (String × String)
  args : List String
  start_function_name : String
  init_function_name : String
  allocate_utf8array_function_name : String
  execute_function_name : String
  memory_name : String
  custom_exports : List (String × FuncSig)
  deriving DecidableEq, Repr

/-- `PluginOptions::new`: fixed defaults for every well-known name except
the execute export name, which is caller-chosen. -/
def PluginOptions.new (module_name file execute_function_name : String) :
    PluginOptions :=
  { module_name := module_name
    file := file
    envs := []
    args := []
    start_function_name := "_start"
    init_function_name := "init"
    allocate_utf8array_function_name := "malloc"
    execute_function_name := execute_function_name
    memory_name := "memory"
    custom_exports := [] }

/-- An instance's export table: `instance.exports.get_function(name)`,
abstracted to a name-to-signature association list. -/
def lookupExport (exports : List (String × FuncSig)) (name : String) :
    Option FuncSig :=
  (exports.find? (fun p => p.1 == name)).map Prod.snd

/-- `helper_get_function` from src/plugin/mod.rs: resolve an export by name
(`FunctionNotFound` when absent), then check it against the expected native
signature (`FunctionInvalidParameter` on mismatch). -/
def helper_get_function (exports : List (String × FuncSig)) (name : String)
    (expected : FuncSig) : Except PluginError Unit :=
  match lookupExport exports name with
  | none => Except.error PluginError.FunctionNotFound
  | some s =>
    if s = expected then Except.ok () else Except.error PluginError.FunctionInvalidParameter

/-- Signature of the execute export: `(WasmerStringPtr, WasmerStringPtr) -> WasmerStringPtr`. -/
def executeSig : FuncSig := ⟨[ValType.i32, ValType.i32], [ValType.i32]⟩

/-- Signature of the allocator export: `u32 -> WasmerStringPtr`. -/
def mallocSig : FuncSig := ⟨[ValType.i32], [ValType.i32]⟩

/-- Signature of the collector export `__collect`: `() -> ()`. -/
def collectSig : FuncSig := ⟨[], []⟩

/-- Signature of the start (entry point) export: `() -> ()`. -/
def startSig : FuncSig := ⟨[], []⟩

/-- Signature of the init export: `WasmerStringPtr -> ()`. -/
def initSig : FuncSig := ⟨[ValType.i32], []⟩

/-- A deserialized module, abstracted to the export table the linked
instance will expose. -/
structure ModuleM where
  exports : List (String × FuncSig)
  deriving DecidableEq, Repr

/-- Outcomes of the engine-level steps of `DefaultPlugin::create`:
module deserialization, wasi environment finalization, wasi import object
generation, and linking (`Instance::new`). -/
structure CreateOutcomes where
  load_outcome : Option ModuleM
  wasi_env_ok : Bool
  import_object_ok : Bool
  instance_ok : Bool
  deriving DecidableEq, Repr

/-- `struct DefaultPlugin`, abstracted to its options and the linked
instance's export table (the resolved `execute_fn` / `malloc_fn` handles
are represented by the successful resolution itself). -/
structure DefaultPlugin where
  options : PluginOptions
  exports : List (String × FuncSig)
  deriving DecidableEq, Repr

/-- `DefaultPlugin::create` from src/plugin/default.rs: module load, wasi
env, import object, custom-export registration, linking, then eager
resolution of the execute export and the allocator export, each failure
short-circuiting with its dedicated error kind. -/
def create (oc : CreateOutcomes) (options : PluginOptions) :
    Except PluginError DefaultPlugin :=
  match oc.load_outcome with
  | none => Except.error PluginError.LoadingError
  | some m =>
    if !oc.wasi_env_ok then Except.error PluginError.InitWasiEnvFailed
    else if !oc.import_object_ok then Except.error PluginError.WasiImportObjectFailed
    else if !oc.instance_ok then Except.error PluginError.InstanceInitFailed
    else
      match helper_get_function m.exports options.execute_function_name executeSig with
      | Except.error e => Except.error e
      | Except.ok _ =>
        match helper_get_function m.exports options.allocate_utf8array_function_name mallocSig with
        | Except.error e => Except.error e
        | Except.ok _ => Except.ok ⟨options, m.exports⟩

/-- Guest linear memory, a flat byte-addressable region. -/
abbrev Mem := List Nat

/-- Byte read (out-of-range reads never happen behind the bounds checks;
the default is irrelevant). -/
def byteAt (mem : Mem) (i : Nat) : Nat := (mem.get? i).getD 0

/-- The little-endian 32-bit value starting at byte offset `i` (wasm linear
memory is little-endian). -/
def readLE32 (mem : Mem) (i : Nat) : Nat :=
  byteAt mem i + 256 * byteAt mem (i + 1) + 65536 * byteAt mem (i + 2) +
    16777216 * byteAt mem (i + 3)

/-- `memory.view::<u32>().get(idx)`: the view has `len / 4` cells; an
in-range index yields the little-endian u32 at byte offset `4 * idx`. -/
def viewU32 (mem : Mem) (idx : Nat) : Option Nat :=
  if 4 * idx + 4 ≤ mem.length then some (readLE32 mem (4 * idx)) else none

/-- The engine's bounds check on `WasmPtr::<u8, Array>::deref(memory, 0, len)`:
`none` when the requested window exceeds current memory size. -/
def derefBytes (mem : Mem) (p len : Nat) : Option (List Nat) :=
  if p + len ≤ mem.length then some ((mem.drop p).take len) else none

/-- The cell-store loop of `allocate_string`: byte `i` of `bs` is written
at offset `p + i`. -/
def writeBytes (mem : Mem) (p : Nat) : List Nat → Mem
  | [] => mem
  | b :: rest => writeBytes (mem.set p b) (p + 1) rest

/-- Continuation byte test: `0x80 ≤ b ≤ 0xBF`. -/
def isCont (b : Nat) : Bool := decide (0x80 ≤ b) && decide (b ≤ 0xBF)

/-- Allowed second byte of a three-byte UTF-8 sequence, per leader `b`
(the restricted ranges for `0xE0` / `0xED` rule out overlong encodings and
surrogates). -/
def byte2of3 (b c : Nat) : Bool :=
  if b = 0xE0 then decide (0xA0 ≤ c) && decide (c ≤ 0xBF)
  else if b = 0xED then decide (0x80 ≤ c) && decide (c ≤ 0x9F)
  else isCont c

/-- Allowed second byte of a four-byte UTF-8 sequence, per leader `b`. -/
def byte2of4 (b c : Nat) : Bool :=
  if b = 0xF0 then decide (0x90 ≤ c) && decide (c ≤ 0xBF)
  else if b = 0xF4 then decide (0x80 ≤ c) && decide (c ≤ 0x8F)
  else isCont c

/-- Length of the valid UTF-8 scalar encoding at the head of `bs`, if any
(the standard validation automaton used by Rust's `str::from_utf8`). -/
def validPrefixLen : List Nat → Option Nat
  | [] => none
  | b :: rest =>
    if b ≤ 0x7F then some 1
    else if decide (0xC2 ≤ b) && decide (b ≤ 0xDF) then
      match rest with
      | [] => none
      | c :: _ => if isCont c then some 2 else none
    else if decide (0xE0 ≤ b) && decide (b ≤ 0xEF) then
      match rest with
      | c :: d :: _ => if byte2of3 b c && isCont d then some 3 else none
      | _ => none
    else if decide (0xF0 ≤ b) && decide (b ≤ 0xF4) then
      match rest with
      | c :: d :: e :: _ =>
        if byte2of4 b c && isCont d && isCont e then some 4 else none
      | _ => none
    else none

/-- Width of the invalid subpart at the head of `bs` (the `error_len` of
Rust's UTF-8 validation: substitution of maximal subparts); `none` means a
truncated sequence at the end of input. -/
def utf8ErrorLen : List Nat → Option Nat
  | [] => none
  | b :: rest =>
    if b ≤ 0x7F then some 1
    else if decide (0xC2 ≤ b) && decide (b ≤ 0xDF) then
      match rest with
      | [] => none
      | c :: _ => if isCont c then some 2 else some 1
    else if decide (0xE0 ≤ b) && decide (b ≤ 0xEF) then
      match rest with
      | [] => none
      | c :: rest2 =>
        if byte2of3 b c then
          match rest2 with
          | [] => none
          | d :: _ => if isCont d then some 3 else some 2
        else some 1
    else if decide (0xF0 ≤ b) && decide (b ≤ 0xF4) then
      match rest with
      | [] => none
      | c :: rest2 =>
        if byte2of4 b c then
          match rest2 with
          | [] => none
          | d :: rest3 =>
            if isCont d then
              match rest3 with
              | [] => none
              | e :: _ => if isCont e then some 4 else some 3
            else some 2
        else some 1
    else some 1

/-- UTF-8 encoding of U+FFFD, the replacement character. -/
def replacementBytes : List Nat := [0xEF, 0xBF, 0xBD]

/-- Fuelled worker for `utf8Lossy`; every step consumes at least one byte,
so fuel `bs.length` computes the fixpoint. -/
def utf8LossyGo : Nat → List Nat → List Nat
  | 0, _ => []
  | _, [] => []
  | fuel + 1, b :: rest =>
    match validPrefixLen (b :: rest) with
    | some k => (b :: rest).take k ++ utf8LossyGo fuel ((b :: rest).drop k)
    | none =>
      match utf8ErrorLen (b :: rest) with
      | some k => replacementBytes ++ utf8LossyGo fuel ((b :: rest).drop k)
      | none => replacementBytes

/-- `String::from_utf8_lossy` at the byte level: valid scalar encodings are
kept verbatim, each maximal invalid subpart becomes one U+FFFD. -/
def utf8Lossy (bs : List Nat) : List Nat := utf8LossyGo bs.length bs

/-- One well-formed UTF-8 scalar encoding (1 to 4 bytes). -/
def validScalar (l : List Nat) : Bool :=
  match l with
  | [b] => decide (b ≤ 0x7F)
  | [b, c] => decide (0xC2 ≤ b) && decide (b ≤ 0xDF) && isCont c
  | [b, c, d] =>
    decide (0xE0 ≤ b) && decide (b ≤ 0xEF) && byte2of3 b c && isCont d
  | [b, c, d, e] =>
    decide (0xF0 ≤ b) && decide (b ≤ 0xF4) && byte2of4 b c && isCont d && isCont e
  | _ => false

/-- A byte list that is a concatenation of well-formed UTF-8 scalar
encodings — the byte content of a host-side Rust `String`. -/
inductive ValidUtf8 : List Nat → Prop
  | nil : ValidUtf8 []
  | scalar (hd tl : List Nat) : validScalar hd = true → ValidUtf8 tl →
      ValidUtf8 (hd ++ tl)

/-- `Plugin::get_string` from src/plugin/mod.rs: the length is the u32 view
cell at index `offset / 4 - 1` (little-endian), the data is `length` bytes
at `offset`, decoded lossily.  `none` models a host panic: the `unwrap` on
an out-of-range view index (including the `usize` underflow when
`offset / 4 = 0`) or on a failed deref. -/
def get_string (mem : Mem) (ptrOffset : Nat) : Option (List Nat) :=
  if ptrOffset / 4 = 0 then none
  else
    match viewU32 mem (ptrOffset / 4 - 1) with
    | none => none
    | some length =>
      match derefBytes mem ptrOffset length with
      | none => none
      | some buf => some (utf8Lossy buf)

/-- Modelled from the spec: the description of `readString` in §4.5 — the
length is the 4-byte little-endian value stored immediately before the
pointer, i.e. at byte offset `ptrOffset - 4`; then `length` bytes at
`ptrOffset` are decoded lossily.  Stated for comparison with `get_string`,
which is translated from the source. -/
def get_string_claimed (mem : Mem) (ptrOffset : Nat) : Option (List Nat) :=
  if 4 ≤ ptrOffset then
    if ptrOffset ≤ mem.length then
      match derefBytes mem ptrOffset (readLE32 mem (ptrOffset - 4)) with
      | none => none
      | some buf => some (utf8Lossy buf)
    else none
  else none

/-- Guest invocations observable in a host-side call, for counting how
often each export is driven. -/
inductive GuestCall
  | malloc (len : Nat)
  | executeCall
  | startCall
  | initCall
  | collect
  deriving DecidableEq, Repr

/-- `Plugin::allocate_string` from src/plugin/mod.rs.  `mallocOutcome` is
the engine-level result of calling the allocator export with
`input.length` (a trap, or a pointer together with the post-call memory —
the allocator may grow or rearrange linear memory).  The first component
records the guest calls made; the second is `none` when the host panics:
on `u32::try_from` overflow (before the allocator is even called), on an
allocator trap, or on a failed deref of the returned pointer. -/
def allocate_string (mem : Mem) (input : List Nat)
    (mallocOutcome : Except Trap (Nat × Mem)) :
    List GuestCall × Option (Nat × Mem) :=
  if input.length < 4294967296 then
    match mallocOutcome with
    | Except.error _ => ([GuestCall.malloc input.length], none)
    | Except.ok (ptr, mem1) =>
      if ptr + input.length ≤ mem1.length then
        ([GuestCall.malloc input.length], some (ptr, writeBytes mem1 ptr input))
      else ([GuestCall.malloc input.length], none)
  else ([], none)

/-- Outcome of draining a sandbox pipe (`read_to_string`): the accumulated
text, or a read failure. -/
abbrev PipeRead := Except Unit (List Char)

/-- `char::is_whitespace` (Unicode White_Space). -/
def isRustWhitespace (c : Char) : Bool :=
  c = ' ' || c = '\t' || c = '\n' || c = Char.ofNat 0xB || c = Char.ofNat 0xC ||
    c = '\r' || c = Char.ofNat 0x85 || c = Char.ofNat 0xA0 ||
    c = Char.ofNat 0x1680 ||
    (decide (0x2000 ≤ c.toNat) && decide (c.toNat ≤ 0x200A)) ||
    c = Char.ofNat 0x2028 || c = Char.ofNat 0x2029 || c = Char.ofNat 0x202F ||
    c = Char.ofNat 0x205F || c = Char.ofNat 0x3000

/-- `str::trim`: remove leading and trailing whitespace. -/
def trimChars (l : List Char) : List Char :=
  ((l.dropWhile isRustWhitespace).reverse.dropWhile isRustWhitespace).reverse

/-- `Plugin::read_from_stdout`: drain the stdout pipe; a read failure or a
drain that trims to the empty string is reported as `none`, otherwise the
trimmed text. -/
def read_from_stdout (drained : PipeRead) : Option (List Char) :=
  match drained with
  | Except.ok buf =>
    let result := trimChars buf
    if result.length > 0 then some result else none
  | Except.error _ => none

/-- `Plugin::read_from_stderr`: same discipline as `read_from_stdout`, on
the stderr pipe. -/
def read_from_stderr (drained : PipeRead) : Option (List Char) :=
  match drained with
  | Except.ok buf =>
    let result := trimChars buf
    if result.length > 0 then some result else none
  | Except.error _ => none

/-- `Plugin::log_and_transform_error`: log the trap, drain and log stderr
for diagnostics, and collapse the trap to `PluginError::RuntimeError`
(diagnostic text is never embedded in the returned value). -/
def log_and_transform_error (stderrDrain : PipeRead) : PluginError :=
  let _diag := read_from_stderr stderrDrain
  PluginError.RuntimeError

/-- `DefaultPlugin::call_garbage_collector`: look up the export named
`"__collect"` (the name is a literal in the source, independent of the
options) with signature `() -> ()`, then invoke it; a trap is logged and
collapsed to `RuntimeError`. -/
def call_garbage_collector (exports : List (String × FuncSig))
    (_options : PluginOptions) (callOutcome : Except Trap Unit)
    (stderrDrain : PipeRead) : List GuestCall × Except PluginError Unit :=
  match helper_get_function exports "__collect" collectSig with
  | Except.error e => ([], Except.error e)
  | Except.ok _ =>
    match callOutcome with
    | Except.ok _ => ([GuestCall.collect], Except.ok ())
    | Except.error _ =>
      ([GuestCall.collect], Except.error (log_and_transform_error stderrDrain))

/-- `DefaultPlugin::execute`: marshal `key` and `payload`, invoke the
stored execute export with the two pointers, on success log stdout and read
the result string back, on a trap collapse it to `RuntimeError`; then
unconditionally run the collector, whose failure is propagated by the `?`
operator; finally return the saved execute result.  Engine-level outcomes
(`malloc1`, `malloc2` for the two allocator calls, `execOutcome` for the
execute export — a trap, or the result pointer with the post-call memory —
and `collectOutcome`) are explicit parameters; `none` models a host
panic. -/
def execute (exports : List (String × FuncSig)) (options : PluginOptions)
    (mem : Mem) (key payload : List Nat)
    (malloc1 malloc2 : Except Trap (Nat × Mem))
    (execOutcome : Except Trap (Nat × Mem))
    (collectOutcome : Except Trap Unit)
    (stdoutDrain stderrDrain gcStderrDrain : PipeRead) :
    List GuestCall × Option (Except PluginError (List Nat)) :=
  let a1 := allocate_string mem key malloc1
  match a1.2 with
  | none => (a1.1, none)
  | some (_keyPtr, mem1) =>
    let a2 := allocate_string mem1 payload malloc2
    match a2.2 with
    | none => (a1.1 ++ a2.1, none)
    | some (_payloadPtr, _mem2) =>
      let result : Option (Except PluginError (List Nat)) :=
        match execOutcome with
        | Except.ok (resultPtr, mem3) =>
          let _log := read_from_stdout stdoutDrain
          match get_string mem3 resultPtr with
          | none => none
          | some s => some (Except.ok s)
        | Except.error _ =>
          some (Except.error (log_and_transform_error stderrDrain))
      match result with
      | none => (a1.1 ++ a2.1 ++ [GuestCall.executeCall], none)
      | some r =>
        let gc := call_garbage_collector exports options collectOutcome gcStderrDrain
        (a1.1 ++ a2.1 ++ [GuestCall.executeCall] ++ gc.1,
          match gc.2 with
          | Except.error e => some (Except.error e)
          | Except.ok _ => some r)

/-- `Plugin::run_init`: marshal the config string, resolve the init export
by its configured name, invoke it with the pointer, log stdout on success,
collapse a trap to `RuntimeError`. -/
def run_init (exports : List (String × FuncSig)) (options : PluginOptions)
    (mem : Mem) (config : List Nat) (mallocOutcome : Except Trap (Nat × Mem))
    (initOutcome : Except Trap Unit) (stdoutDrain stderrDrain : PipeRead) :
    List GuestCall × Option (Except PluginError Unit) :=
  let a := allocate_string mem config mallocOutcome
  match a.2 with
  | none => (a.1, none)
  | some _cfg =>
    match helper_get_function exports options.init_function_name initSig with
    | Except.error e => (a.1, some (Except.error e))
    | Except.ok _ =>
      match initOutcome with
      | Except.ok _ =>
        let _log := read_from_stdout stdoutDrain
        (a.1 ++ [GuestCall.initCall], some (Except.ok ()))
      | Except.error _ =>
        (a.1 ++ [GuestCall.initCall],
          some (Except.error (log_and_transform_error stderrDrain)))

/-- `Plugin::init`: resolve and invoke the start (entry point) export, log
stdout on success (a trap is collapsed to `RuntimeError` and aborts the
sequence), then run `run_init`.  `startOutcome` carries the post-start
memory. -/
def init (exports : List (String × FuncSig)) (options : PluginOptions)
    (mem : Mem) (config : List Nat) (startOutcome : Except Trap Mem)
    (startStdoutDrain startStderrDrain : PipeRead)
    (mallocOutcome : Except Trap (Nat × Mem)) (initOutcome : Except Trap Unit)
    (stdoutDrain stderrDrain : PipeRead) :
    List GuestCall × Option (Except PluginError Unit) :=
  match helper_get_function exports options.start_function_name startSig with
  | Except.error e => ([], some (Except.error e))
  | Except.ok _ =>
    match startOutcome with
    | Except.ok mem1 =>
      let _log := read_from_stdout startStdoutDrain
      let r := run_init exports options mem1 config mallocOutcome initOutcome
        stdoutDrain stderrDrain
      (GuestCall.startCall :: r.1, r.2)
    | Except.error _ =>
      ([GuestCall.startCall],
        some (Except.error (log_and_transform_error startStderrDrain)))

theorem writeBytes_length (bs : List Nat) :
    ∀ (mem : Mem) (p : Nat), (writeBytes mem p bs).length = mem.length := by
  induction bs with
  | nil => intro mem p; rfl
  | cons b rest ih =>
    intro mem p
    simp [writeBytes, ih, List.length_set]

theorem writeBytes_get?_lt (bs : List Nat) :
    ∀ (mem : Mem) (p i : Nat), i < p →
      (writeBytes mem p bs).get? i = mem.get? i := by
  induction bs with
  | nil => intro mem p i _; rfl
  | cons b rest ih =>
    intro mem p i hi
    have h1 : i < p + 1 := Nat.lt_succ_of_lt hi
    rw [writeBytes, ih (mem.set p b) (p + 1) i h1,
      List.get?_set_ne b mem (Nat.ne_of_gt hi)]

theorem writeBytes_get?_in (bs : List Nat) :
    ∀ (mem : Mem) (p i : Nat), p ≤ i → i < p + bs.length → i < mem.length →
      (writeBytes mem p bs).get? i = bs.get? (i - p) := by
  induction bs with
  | nil =>
    intro mem p i h1 h2 _
    simp only [List.length_nil] at h2
    omega
  | cons b rest ih =>
    intro mem p i h1 h2 hmem
    rw [writeBytes]
    rcases Nat.eq_or_lt_of_le h1 with heq | hlt
    · subst heq
      rw [writeBytes_get?_lt rest (mem.set p b) (p + 1) p (Nat.lt_succ_self p),
        List.get?_set_eq_of_lt b hmem]
      simp
    · have h3 : p + 1 ≤ i := hlt
      have h4 : i < (p + 1) + rest.length := by simp at h2 ⊢; omega
      have h5 : i < (mem.set p b).length := by rw [List.length_set]; exact hmem
      rw [ih (mem.set p b) (p + 1) i h3 h4 h5]
      have h6 : i - p = (i - (p + 1)) + 1 := by omega
      rw [h6]
      rfl

theorem writeBytes_slice (mem : Mem) (p : Nat) (bs : List Nat)
    (h : p + bs.length ≤ mem.length) :
    ((writeBytes mem p bs).drop p).take bs.length = bs := by
  apply List.ext
  intro n
  by_cases hn : n < bs.length
  · rw [List.get?_take hn, List.get?_drop,
      writeBytes_get?_in bs mem p (p + n) (Nat.le_add_right p n) (by omega) (by omega)]
    congr 1
    omega
  · have hbn : bs.length ≤ n := Nat.le_of_not_lt hn
    have hlen : (((writeBytes mem p bs).drop p).take bs.length).length ≤ bs.length := by
      rw [List.length_take]
      exact Nat.min_le_left _ _
    rw [List.get?_eq_none.2 (Nat.le_trans hlen hbn), List.get?_eq_none.2 hbn]

theorem readLE32_encoded (mem : Mem) (i n : Nat) (hn : n < 4294967296)
    (h0 : mem.get? i = some (n % 256))
    (h1 : mem.get? (i + 1) = some (n / 256 % 256))
    (h2 : mem.get? (i + 2) = some (n / 65536 % 256))
    (h3 : mem.get? (i + 3) = some (n / 16777216 % 256)) :
    readLE32 mem i = n := by
  rw [readLE32, byteAt, byteAt, byteAt, byteAt, h0, h1, h2, h3]
  simp only [Option.getD_some]
  omega

theorem dropWhile_idem (p : Char → Bool) (l : List Char) :
    (l.dropWhile p).dropWhile p = l.dropWhile p := by
  induction l with
  | nil => rfl
  | cons a as ih =>
    by_cases h : p a
    · rw [List.dropWhile_cons_of_pos h]
      exact ih
    · rw [List.dropWhile_cons_of_neg h, List.dropWhile_cons_of_neg h]

theorem dropWhile_eq_self_of_prefix (p : Char → Bool) (l l' : List Char)
    (hp : l' <+: l) (h : l.dropWhile p = l) : l'.dropWhile p = l' := by
  cases l' with
  | nil => rfl
  | cons a as =>
    obtain ⟨t, ht⟩ := hp
    have hpa : p a = false := by
      by_contra hcon
      have hpa' : p a = true := by
        cases hpc : p a
        · exact absurd hpc hcon
        · rfl
      have h' : (a :: (as ++ t)).dropWhile p = a :: (as ++ t) := by
        rw [← List.cons_append, ht]
        exact h
      rw [List.dropWhile_cons_of_pos hpa'] at h'
      have hlen : ((as ++ t).dropWhile p).length ≤ (as ++ t).length :=
        (List.dropWhile_suffix p).length_le
      rw [h'] at hlen
      simp at hlen
    exact List.dropWhile_cons_of_neg (by simp [hpa])

theorem trimChars_no_leading (l : List Char) :
    (trimChars l).dropWhile isRustWhitespace = trimChars l := by
  apply dropWhile_eq_self_of_prefix isRustWhitespace (l.dropWhile isRustWhitespace)
  · rw [trimChars]
    have hsuf : (l.dropWhile isRustWhitespace).reverse.dropWhile isRustWhitespace <:+
        (l.dropWhile isRustWhitespace).reverse := List.dropWhile_suffix _
    have := List.reverse_prefix.2 hsuf
    simpa using this
  · exact dropWhile_idem _ _

theorem trimChars_idem (l : List Char) : trimChars (trimChars l) = trimChars l := by
  have h1 : (trimChars l).dropWhile isRustWhitespace = trimChars l :=
    trimChars_no_leading l
  have h2 : (trimChars l).reverse =
      ((l.dropWhile isRustWhitespace).reverse).dropWhile isRustWhitespace := by
    rw [trimChars, List.reverse_reverse]
  calc trimChars (trimChars l)
      = (((trimChars l).dropWhile isRustWhitespace).reverse.dropWhile
          isRustWhitespace).reverse := rfl
    _ = ((trimChars l).reverse.dropWhile isRustWhitespace).reverse := by rw [h1]
    _ = trimChars l := by rw [h2, dropWhile_idem, ← h2, List.reverse_reverse]

theorem validScalar_length (l : List Nat) (h : validScalar l = true) :
    1 ≤ l.length ∧ l.length ≤ 4 := by
  match l with
  | [] => simp [validScalar] at h
  | [b] => simp
  | [b, c] => simp
  | [b, c, d] => simp
  | [b, c, d, e] => simp
  | b :: c :: d :: e :: g :: rest => simp [validScalar] at h

theorem validPrefixLen_append (hd tl : List Nat) (h : validScalar hd = true) :
    validPrefixLen (hd ++ tl) = some hd.length := by
  match hd with
  | [] => simp [validScalar] at h
  | [b] =>
    simp only [validScalar, decide_eq_true_eq] at h
    simp [validPrefixLen, h]
  | [b, c] =>
    simp only [validScalar, Bool.and_eq_true, decide_eq_true_eq] at h
    obtain ⟨⟨h1, h2⟩, h3⟩ := h
    have hb : ¬ b ≤ 0x7F := by omega
    simp [validPrefixLen, hb, h1, h2, h3]
  | [b, c, d] =>
    simp only [validScalar, Bool.and_eq_true, decide_eq_true_eq] at h
    obtain ⟨⟨⟨h1, h2⟩, h3⟩, h4⟩ := h
    have hb : ¬ b ≤ 0x7F := by omega
    have hb2 : ¬ b ≤ 0xDF := by omega
    simp [validPrefixLen, hb, hb2, h1, h2, h3, h4]
  | [b, c, d, e] =>
    simp only [validScalar, Bool.and_eq_true, decide_eq_true_eq] at h
    obtain ⟨⟨⟨⟨h1, h2⟩, h3⟩, h4⟩, h5⟩ := h
    have hb : ¬ b ≤ 0x7F := by omega
    have hb2 : ¬ b ≤ 0xDF := by omega
    have hb3 : ¬ b ≤ 0xEF := by omega
    simp [validPrefixLen, hb, hb2, hb3, h1, h2, h3, h4, h5]
  | b :: c :: d :: e :: g :: rest => simp [validScalar] at h

theorem utf8LossyGo_valid (bs : List Nat) (h : ValidUtf8 bs) :
    ∀ fuel, bs.length ≤ fuel → utf8LossyGo fuel bs = bs := by
  induction h with
  | nil =>
    intro fuel _
    cases fuel <;> rfl
  | scalar hd tl hv htl ih =>
    intro fuel hlen
    cases hd with
    | nil => simp [validScalar] at hv
    | cons b hd' =>
      cases fuel with
      | zero => simp at hlen
      | succ f =>
        have hpre : validPrefixLen (b :: (hd' ++ tl)) = some (b :: hd').length := by
          rw [← List.cons_append]
          exact validPrefixLen_append _ _ hv
        rw [List.cons_append, utf8LossyGo, hpre]
        simp only [← List.cons_append, List.take_left, List.drop_left]
        rw [ih f (by simp at hlen; omega)]

theorem utf8Lossy_valid (bs : List Nat) (h : ValidUtf8 bs) : utf8Lossy bs = bs :=
  utf8LossyGo_valid bs h bs.length (Nat.le_refl _)

theorem allocate_string_fst (mem : Mem) (input : List Nat)
    (mo : Except Trap (Nat × Mem)) (x : Nat × Mem)
    (h : (allocate_string mem input mo).2 = some x) :
    (allocate_string mem input mo).1 = [GuestCall.malloc input.length] := by
  by_cases hlen : input.length < 4294967296
  · cases mo with
    | error t => simp [allocate_string, hlen]
    | ok pm =>
      obtain ⟨p, m1⟩ := pm
      by_cases hb : p + input.length ≤ m1.length <;>
        simp [allocate_string, hlen, hb]
  · exfalso
    simp [allocate_string, hlen] at h

/-- Claim C5: `create` resolves the configured execute and allocator exports
eagerly.  If the linked module lacks the configured execute (or allocator)
export, `create` fails with `FunctionNotFound`; if the export exists with a
mismatched signature, `create` fails with `FunctionInvalidParameter`; in
either case `create` as a whole returns the error, so no plugin instance
value is produced. -/
theorem create_eager_export_resolution
    (oc : CreateOutcomes) (opts : PluginOptions) (m : ModuleM)
    (hload : oc.load_outcome = some m)
    (henv : oc.wasi_env_ok = true) (himp : oc.import_object_ok = true)
    (hinst : oc.instance_ok = true) :
    (lookupExport m.exports opts.execute_function_name = none →
      create oc opts = Except.error PluginError.FunctionNotFound) ∧
    (∀ s, lookupExport m.exports opts.execute_function_name = some s →
      s ≠ executeSig →
      create oc opts = Except.error PluginError.FunctionInvalidParameter) ∧
    (lookupExport m.exports opts.execute_function_name = some executeSig →
      lookupExport m.exports opts.allocate_utf8array_function_name = none →
      create oc opts = Except.error PluginError.FunctionNotFound) ∧
    (∀ s, lookupExport m.exports opts.execute_function_name = some executeSig →
      lookupExport m.exports opts.allocate_utf8array_function_name = some s →
      s ≠ mallocSig →
      create oc opts = Except.error PluginError.FunctionInvalidParameter) ∧
    (∀ e p, create oc opts = Except.error e → create oc opts ≠ Except.ok p) := by
  refine ⟨?_, ?_, ?_, ?_, ?_⟩
  · intro hex
    simp [create, hload, henv, himp, hinst, helper_get_function, hex]
  · intro s hex hne
    simp [create, hload, henv, himp, hinst, helper_get_function, hex, hne]
  · intro hex hal
    simp [create, hload, henv, himp, hinst, helper_get_function, hex, hal]
  · intro s hex hal hne
    simp [create, hload, henv, himp, hinst, helper_get_function, hex, hal, hne]
  · intro e p he hok
    rw [he] at hok
    exact Except.noConfusion hok

/-- Claim C5 witness: a module with an empty export table makes `create` fail
with `FunctionNotFound`. -/
theorem create_eager_export_resolution_witness :
    lookupExport (ModuleM.mk []).exports
      (PluginOptions.new "m" "f" "transform").execute_function_name = none ∧
    create ⟨some ⟨[]⟩, true, true, true⟩ (PluginOptions.new "m" "f" "transform") =
      Except.error PluginError.FunctionNotFound :=
  ⟨by decide,
    (create_eager_export_resolution ⟨some ⟨[]⟩, true, true, true⟩
      (PluginOptions.new "m" "f" "transform") ⟨[]⟩ rfl rfl rfl rfl).1 (by decide)⟩

/-- Claim C6: `allocate_string` never returns a typed `PluginError`: an
allocator trap aborts the call with a host panic (`none`, no return value)
right after the single allocator invocation, with no recovery path; in the
non-trapping case the returned pointer is exactly the allocator's result for
a request of `input.length` bytes, and the text's raw bytes are copied to
consecutive offsets starting there. -/
theorem allocate_string_no_typed_error
    (mem : Mem) (input : List Nat) (hlen : input.length < 4294967296) :
    (∀ t, allocate_string mem input (Except.error t) =
      ([GuestCall.malloc input.length], none)) ∧
    (∀ p m1, p + input.length ≤ m1.length →
      allocate_string mem input (Except.ok (p, m1)) =
        ([GuestCall.malloc input.length], some (p, writeBytes m1 p input)) ∧
      ∀ i, i < input.length → (writeBytes m1 p input).get? (p + i) = input.get? i) := by
  constructor
  · intro t
    simp [allocate_string, hlen]
  · intro p m1 hb
    constructor
    · simp [allocate_string, hlen, hb]
    · intro i hi
      rw [writeBytes_get?_in input m1 p (p + i) (Nat.le_add_right p i)
        (by omega) (by omega)]
      congr 1
      omega

/-- Claim C6 witness: a trapping allocator aborts with no typed error; a
successful allocation returns the allocator's pointer with the bytes
copied. -/
theorem allocate_string_no_typed_error_witness :
    ([65] : List Nat).length < 4294967296 ∧
    allocate_string [] [65] (Except.error Trap.trap) =
      ([GuestCall.malloc 1], none) ∧
    allocate_string [] [65] (Except.ok (0, [9])) =
      ([GuestCall.malloc 1], some (0, [65])) :=
  ⟨by decide,
    (allocate_string_no_typed_error [] [65] (by decide)).1 Trap.trap,
    ((allocate_string_no_typed_error [] [65] (by decide)).2 0 [9] (by decide)).1⟩

/-- Claim C2 counterexample: at the non-4-aligned pointer offset 6,
`get_string` takes the length from the aligned u32 cell at index
`6 / 4 - 1 = 0` (bytes 0..4, value 2) and reads the two bytes at offset 6,
while the claimed behaviour (length in the four bytes immediately before the
offset, bytes 2..6, value 0) reads the empty string: the results differ, so
the claim's "including for pointers whose offset is not a multiple of 4"
fails. -/
theorem get_string_unaligned_cex :
    get_string [2, 0, 0, 0, 0, 0, 65, 66] 6 = some [65, 66] ∧
    get_string_claimed [2, 0, 0, 0, 0, 0, 65, 66] 6 = some [] ∧
    get_string [2, 0, 0, 0, 0, 0, 65, 66] 6 ≠
      get_string_claimed [2, 0, 0, 0, 0, 0, 65, 66] 6 := by
  refine ⟨by decide, by decide, by decide⟩

/-- Claim C2 (amended): for pointer offsets that are a multiple of 4,
`get_string` behaves exactly as the spec describes — the length is the
4-byte little-endian value stored immediately before the offset and that
many bytes at the offset are decoded as UTF-8 with lossy substitution; for
other offsets the length is instead read from the aligned u32 cell at index
`offset / 4 - 1`, which the counterexample separates from the claimed
behaviour. -/
theorem get_string_aligned_matches_claim (mem : Mem) (off : Nat)
    (h : off % 4 = 0) :
    get_string mem off = get_string_claimed mem off := by
  rw [get_string, get_string_claimed]
  by_cases h4 : off / 4 = 0
  · rw [if_pos h4, if_neg (by omega)]
  · rw [if_neg h4, if_pos (by omega : 4 ≤ off), viewU32]
    have he2 : 4 * (off / 4 - 1) + 4 = off := by omega
    have he : 4 * (off / 4 - 1) = off - 4 := by omega
    rw [he2, he]
    by_cases hb : off ≤ mem.length
    · rw [if_pos hb, if_pos hb]
    · rw [if_neg hb, if_neg hb]

/-- Claim C2 witness: at the 4-aligned offset 8, `get_string` and the claimed
behaviour agree (both read "A" with its length prefix at bytes 4..8). -/
theorem get_string_aligned_matches_claim_witness :
    8 % 4 = 0 ∧
    get_string [0, 0, 0, 0, 1, 0, 0, 0, 65] 8 =
      get_string_claimed [0, 0, 0, 0, 1, 0, 0, 0, 65] 8 ∧
    get_string [0, 0, 0, 0, 1, 0, 0, 0, 65] 8 = some [65] :=
  ⟨by decide,
    get_string_aligned_matches_claim [0, 0, 0, 0, 1, 0, 0, 0, 65] 8 (by decide),
    by decide⟩

/-- Claim C3 counterexample: with a non-4-aligned allocator pointer (offset
6) that satisfies every hypothesis of the claim — in bounds, byte length
fitting guest memory, the 4-byte little-endian length of the allocation
stored immediately before the pointer (bytes 2..6 hold 1), no overlap —
the round trip fails: `get_string` reads its length from the aligned cell
at bytes 0..4 instead (value 67849), the deref bound fails, and the read
panics instead of returning the written string "A". -/
theorem roundtrip_unaligned_cex :
    ValidUtf8 [65] ∧
    readLE32 [9, 9, 1, 0, 0, 0, 0, 7] 2 = 1 ∧
    6 + 1 ≤ ([9, 9, 1, 0, 0, 0, 0, 7] : Mem).length ∧
    (allocate_string [] [65] (Except.ok (6, [9, 9, 1, 0, 0, 0, 0, 7]))).2 =
      some (6, [9, 9, 1, 0, 0, 0, 65, 7]) ∧
    get_string [9, 9, 1, 0, 0, 0, 65, 7] 6 = none ∧
    get_string [9, 9, 1, 0, 0, 0, 65, 7] 6 ≠ some [65] := by
  refine ⟨ValidUtf8.scalar [65] [] (by decide) ValidUtf8.nil,
    by decide, by decide, by decide, by decide, by decide⟩

/-- Claim C3 (amended): the round trip `get_string` after `allocate_string`
returns exactly the written UTF-8 string, under the claim's hypotheses (the
allocator returns an in-bounds pointer with the 4-byte little-endian length
of the allocation stored immediately before it, and the byte length fits a
u32) plus the hypothesis forced by the counterexample: the pointer must be
4-byte aligned (and at least 4, so the length prefix exists). -/
theorem allocate_get_string_roundtrip
    (mem mem1 : Mem) (s : List Nat) (p : Nat)
    (hvalid : ValidUtf8 s)
    (hsmall : s.length < 4294967296)
    (halign : p % 4 = 0) (hp4 : 4 ≤ p)
    (hbound : p + s.length ≤ mem1.length)
    (hlen0 : mem1.get? (p - 4) = some (s.length % 256))
    (hlen1 : mem1.get? (p - 3) = some (s.length / 256 % 256))
    (hlen2 : mem1.get? (p - 2) = some (s.length / 65536 % 256))
    (hlen3 : mem1.get? (p - 1) = some (s.length / 16777216 % 256)) :
    (allocate_string mem s (Except.ok (p, mem1))).2 =
      some (p, writeBytes mem1 p s) ∧
    get_string (writeBytes mem1 p s) p = some s := by
  have hlenw : (writeBytes mem1 p s).length = mem1.length := writeBytes_length s mem1 p
  constructor
  · simp [allocate_string, hsmall, hbound]
  · have hdiv : ¬ p / 4 = 0 := by omega
    rw [get_string, if_neg hdiv, viewU32]
    have he2 : 4 * (p / 4 - 1) + 4 = p := by omega
    have he : 4 * (p / 4 - 1) = p - 4 := by omega
    rw [he2, he, if_pos (by omega : p ≤ (writeBytes mem1 p s).length)]
    have hr : readLE32 (writeBytes mem1 p s) (p - 4) = s.length := by
      apply readLE32_encoded _ _ _ hsmall
      · rw [writeBytes_get?_lt s mem1 p (p - 4) (by omega)]
        exact hlen0
      · rw [writeBytes_get?_lt s mem1 p (p - 4 + 1) (by omega)]
        rw [show p - 4 + 1 = p - 3 by omega]
        exact hlen1
      · rw [writeBytes_get?_lt s mem1 p (p - 4 + 2) (by omega)]
        rw [show p - 4 + 2 = p - 2 by omega]
        exact hlen2
      · rw [writeBytes_get?_lt s mem1 p (p - 4 + 3) (by omega)]
        rw [show p - 4 + 3 = p - 1 by omega]
        exact hlen3
    rw [hr]
    simp only [derefBytes]
    rw [if_pos (by omega : p + s.length ≤ (writeBytes mem1 p s).length)]
    rw [writeBytes_slice mem1 p s hbound]
    show some (utf8Lossy s) = some s
    rw [utf8Lossy_valid s hvalid]

/-- Claim C3 witness: writing "Hi" through a well-behaved 4-aligned
allocation at offset 8 and reading it back returns exactly "Hi". -/
theorem allocate_get_string_roundtrip_witness :
    ValidUtf8 [72, 105] ∧
    (allocate_string [] [72, 105]
      (Except.ok (8, [0, 0, 0, 0, 2, 0, 0, 0, 0, 0]))).2 =
      some (8, writeBytes [0, 0, 0, 0, 2, 0, 0, 0, 0, 0] 8 [72, 105]) ∧
    get_string (writeBytes [0, 0, 0, 0, 2, 0, 0, 0, 0, 0] 8 [72, 105]) 8 =
      some [72, 105] :=
  ⟨ValidUtf8.scalar [72] [105] (by decide)
      (ValidUtf8.scalar [105] [] (by decide) ValidUtf8.nil),
    (allocate_get_string_roundtrip [] [0, 0, 0, 0, 2, 0, 0, 0, 0, 0] [72, 105] 8
      (ValidUtf8.scalar [72] [105] (by decide)
        (ValidUtf8.scalar [105] [] (by decide) ValidUtf8.nil))
      (by decide) (by decide) (by decide) (by decide)
      (by decide) (by decide) (by decide) (by decide)).1,
    (allocate_get_string_roundtrip [] [0, 0, 0, 0, 2, 0, 0, 0, 0, 0] [72, 105] 8
      (ValidUtf8.scalar [72] [105] (by decide)
        (ValidUtf8.scalar [105] [] (by decide) ValidUtf8.nil))
      (by decide) (by decide) (by decide) (by decide)
      (by decide) (by decide) (by decide) (by decide)).2⟩

/-- Claim C7 counterexample: a pointer (offset 8) obtained from
`allocate_string` against instance A's memory, when passed to `get_string`
against instance B's memory, is not rejected: `get_string` has no error
channel at all and silently reads B's unrelated bytes (here "XYZ" instead
of A's "Hi"). -/
theorem get_string_cross_instance_cex :
    (allocate_string [] [72, 105]
      (Except.ok (8, [0, 0, 0, 0, 2, 0, 0, 0, 0, 0]))).2 =
      some (8, [0, 0, 0, 0, 2, 0, 0, 0, 72, 105]) ∧
    get_string [0, 0, 0, 0, 2, 0, 0, 0, 72, 105] 8 = some [72, 105] ∧
    get_string [7, 7, 7, 7, 3, 0, 0, 0, 88, 89, 90, 0] 8 = some [88, 89, 90] ∧
    get_string [7, 7, 7, 7, 3, 0, 0, 0, 88, 89, 90, 0] 8 ≠ some [72, 105] := by
  refine ⟨by decide, by decide, by decide, by decide⟩

/-- Claim C7 (amended): the reference `get_string` performs no instance
check — its result is computed from the target memory and the raw offset
alone, so a pointer obtained from instance A (the provenance hypothesis
below) is not rejected against instance B: whenever B's memory passes the
ordinary bounds checks at that offset, `get_string` silently returns B's
bytes; no `RuntimeError` is ever produced (the type has no error channel).
The rejection the claim asks for is the strengthening the spec directs
implementers to add, absent from the reference behaviour. -/
theorem get_string_ignores_origin
    (memA : Mem) (inputA : List Nat) (moA : Except Trap (Nat × Mem))
    (p : Nat) (memA2 : Mem)
    (hA : (allocate_string memA inputA moA).2 = some (p, memA2))
    (memB : Mem) (len : Nat)
    (hp : ¬ p / 4 = 0)
    (hlen : viewU32 memB (p / 4 - 1) = some len)
    (hb : p + len ≤ memB.length) :
    get_string memB p = some (utf8Lossy ((memB.drop p).take len)) := by
  rw [get_string, if_neg hp, hlen]
  simp only [derefBytes]
  rw [if_pos hb]

/-- Claim C7 witness: the amended theorem applied to the concrete A/B pair:
the A-originated pointer 8 reads B's bytes "XYZ". -/
theorem get_string_ignores_origin_witness :
    (allocate_string [] [72, 105]
      (Except.ok (8, [0, 0, 0, 0, 2, 0, 0, 0, 0, 0]))).2 =
      some (8, [0, 0, 0, 0, 2, 0, 0, 0, 72, 105]) ∧
    get_string [7, 7, 7, 7, 3, 0, 0, 0, 88, 89, 90, 0] 8 =
      some (utf8Lossy ((([7, 7, 7, 7, 3, 0, 0, 0, 88, 89, 90, 0] : Mem).drop 8).take 3)) :=
  ⟨by decide,
    get_string_ignores_origin [] [72, 105]
      (Except.ok (8, [0, 0, 0, 0, 2, 0, 0, 0, 0, 0])) 8
      [0, 0, 0, 0, 2, 0, 0, 0, 72, 105] (by decide)
      [7, 7, 7, 7, 3, 0, 0, 0, 88, 89, 90, 0] 3
      (by decide) (by decide) (by decide)⟩

/-- Claim C1 counterexample: the execute export traps, and the subsequent
collector call fails because the module has no `__collect` export; the `?`
operator propagates the collector's failure, so `execute` returns
`FunctionNotFound` — the collector failure replaces the prior execute
error (`RuntimeError`) in the returned value. -/
theorem execute_collector_error_replaces_cex :
    (execute [("transform", executeSig), ("malloc", mallocSig)]
      (PluginOptions.new "p" "f" "transform") [0, 0, 0, 0, 0] [107] [112]
      (Except.ok (4, [0, 0, 0, 0, 0])) (Except.ok (0, [0, 0, 0, 0, 107]))
      (Except.error Trap.trap) (Except.ok ())
      (Except.ok []) (Except.ok []) (Except.ok [])).2 =
      some (Except.error PluginError.FunctionNotFound) ∧
    PluginError.FunctionNotFound ≠ PluginError.RuntimeError := by
  refine ⟨by rfl, by decide⟩

/-- Claim C1 (amended): when the execute export traps and the subsequent
collector call also traps, the value returned by `execute` is
`Except.error RuntimeError` — equal to the execute failure, because both
traps collapse to the payload-free `RuntimeError` kind.  In general,
however, a collector failure is propagated by the `?` operator and does
replace the execute result: when the collector fails with a different kind
(missing or ill-typed `__collect`), that error — not the execute failure —
is returned (see the counterexample). -/
theorem execute_trap_collector_trap_returns_runtime_error
    (exports : List (String × FuncSig)) (opts : PluginOptions) (mem : Mem)
    (key payload : List Nat) (malloc1 malloc2 : Except Trap (Nat × Mem))
    (kp : Nat) (mem1 : Mem) (pp : Nat) (mem2 : Mem)
    (h1 : (allocate_string mem key malloc1).2 = some (kp, mem1))
    (h2 : (allocate_string mem1 payload malloc2).2 = some (pp, mem2))
    (hcol : lookupExport exports "__collect" = some collectSig)
    (t tc : Trap) (sd ed gd : PipeRead) :
    (execute exports opts mem key payload malloc1 malloc2
      (Except.error t) (Except.error tc) sd ed gd).2 =
      some (Except.error PluginError.RuntimeError) := by
  simp [execute, h1, h2, call_garbage_collector, helper_get_function,
    hcol, log_and_transform_error]

/-- Claim C1 witness: with `__collect` present and both the execute export
and the collector trapping, `execute` returns `RuntimeError`. -/
theorem execute_trap_collector_trap_witness :
    (allocate_string [0, 0, 0, 0, 0] [107] (Except.ok (4, [0, 0, 0, 0, 0]))).2 =
      some (4, [0, 0, 0, 0, 107]) ∧
    lookupExport [("__collect", collectSig)] "__collect" = some collectSig ∧
    (execute [("__collect", collectSig)] (PluginOptions.new "p" "f" "t")
      [0, 0, 0, 0, 0] [107] [112]
      (Except.ok (4, [0, 0, 0, 0, 0])) (Except.ok (0, [0, 0, 0, 0, 107]))
      (Except.error Trap.trap) (Except.error Trap.trap)
      (Except.ok []) (Except.ok []) (Except.ok [])).2 =
      some (Except.error PluginError.RuntimeError) :=
  ⟨by decide, by decide,
    execute_trap_collector_trap_returns_runtime_error
      [("__collect", collectSig)] (PluginOptions.new "p" "f" "t")
      [0, 0, 0, 0, 0] [107] [112]
      (Except.ok (4, [0, 0, 0, 0, 0])) (Except.ok (0, [0, 0, 0, 0, 107]))
      4 [0, 0, 0, 0, 107] 0 [112, 0, 0, 0, 107]
      (by decide) (by decide) (by decide)
      Trap.trap Trap.trap (Except.ok []) (Except.ok []) (Except.ok [])⟩

/-- Claim C4: for every completed `execute` call — the two marshaling
allocations succeed and the execute export either traps or succeeds with a
readable result pointer — the collector export (present with its expected
signature) is invoked exactly once, after the execute export invocation:
the guest-call trace is precisely malloc, malloc, execute, collect. -/
theorem execute_collector_called_once
    (exports : List (String × FuncSig)) (opts : PluginOptions) (mem : Mem)
    (key payload : List Nat) (malloc1 malloc2 : Except Trap (Nat × Mem))
    (execO : Except Trap (Nat × Mem)) (collectO : Except Trap Unit)
    (sd ed gd : PipeRead)
    (kp : Nat) (mem1 : Mem) (pp : Nat) (mem2 : Mem)
    (h1 : (allocate_string mem key malloc1).2 = some (kp, mem1))
    (h2 : (allocate_string mem1 payload malloc2).2 = some (pp, mem2))
    (hcol : lookupExport exports "__collect" = some collectSig)
    (hread : ∀ rp m3, execO = Except.ok (rp, m3) → (get_string m3 rp).isSome) :
    (execute exports opts mem key payload malloc1 malloc2 execO collectO
        sd ed gd).1 =
      [GuestCall.malloc key.length, GuestCall.malloc payload.length,
        GuestCall.executeCall, GuestCall.collect] ∧
    ((execute exports opts mem key payload malloc1 malloc2 execO collectO
        sd ed gd).1).count GuestCall.collect = 1 := by
  have hf1 := allocate_string_fst mem key malloc1 _ h1
  have hf2 := allocate_string_fst mem1 payload malloc2 _ h2
  have htrace : (execute exports opts mem key payload malloc1 malloc2 execO
      collectO sd ed gd).1 =
      [GuestCall.malloc key.length, GuestCall.malloc payload.length,
        GuestCall.executeCall, GuestCall.collect] := by
    cases execO with
    | error t =>
      cases collectO with
      | error tc =>
        simp [execute, h1, h2, hf1, hf2, call_garbage_collector,
          helper_get_function, hcol]
      | ok u =>
        simp [execute, h1, h2, hf1, hf2, call_garbage_collector,
          helper_get_function, hcol]
    | ok rm =>
      obtain ⟨rp, m3⟩ := rm
      obtain ⟨s, hs⟩ := Option.isSome_iff_exists.1 (hread rp m3 rfl)
      cases collectO with
      | error tc =>
        simp [execute, h1, h2, hf1, hf2, hs, call_garbage_collector,
          helper_get_function, hcol]
      | ok u =>
        simp [execute, h1, h2, hf1, hf2, hs, call_garbage_collector,
          helper_get_function, hcol]
  refine ⟨htrace, ?_⟩
  rw [htrace]
  rfl

/-- Claim C4 witness: a successful execute call against a module exporting
`__collect` drives the collector exactly once. -/
theorem execute_collector_called_once_witness :
    (allocate_string [0, 0, 0, 0, 0] [107] (Except.ok (4, [0, 0, 0, 0, 0]))).2 =
      some (4, [0, 0, 0, 0, 107]) ∧
    (execute [("__collect", collectSig)] (PluginOptions.new "p" "f" "t")
      [0, 0, 0, 0, 0] [107] [112]
      (Except.ok (4, [0, 0, 0, 0, 0])) (Except.ok (0, [0, 0, 0, 0, 107]))
      (Except.ok (4, [2, 0, 0, 0, 65, 66])) (Except.ok ())
      (Except.ok []) (Except.ok []) (Except.ok [])).1.count GuestCall.collect = 1 :=
  ⟨by decide,
    (execute_collector_called_once [("__collect", collectSig)]
      (PluginOptions.new "p" "f" "t") [0, 0, 0, 0, 0] [107] [112]
      (Except.ok (4, [0, 0, 0, 0, 0])) (Except.ok (0, [0, 0, 0, 0, 107]))
      (Except.ok (4, [2, 0, 0, 0, 65, 66])) (Except.ok ())
      (Except.ok []) (Except.ok []) (Except.ok [])
      4 [0, 0, 0, 0, 107] 0 [112, 0, 0, 0, 107]
      (by decide) (by decide) (by decide)
      (fun rp m3 h => by cases h; decide)).2⟩

/-- Claim C9 counterexample: a module that exports `__collect` with a wrong
signature (here `(i32) -> ()`) also "does not export a function named
exactly `__collect` of type `() -> ()`", yet `execute` returns
`FunctionInvalidParameter`, not the claimed `FunctionNotFound` — the
`native` type check, not the name lookup, fails. -/
theorem execute_collect_wrong_sig_cex :
    lookupExport [("transform", executeSig), ("__collect", initSig)]
      "__collect" = some initSig ∧
    initSig ≠ collectSig ∧
    (execute [("transform", executeSig), ("__collect", initSig)]
      (PluginOptions.new "p" "f" "t") [0, 0, 0, 0, 0] [107] [112]
      (Except.ok (4, [0, 0, 0, 0, 0])) (Except.ok (0, [0, 0, 0, 0, 107]))
      (Except.ok (4, [2, 0, 0, 0, 65, 66])) (Except.ok ())
      (Except.ok []) (Except.ok []) (Except.ok [])).2 =
      some (Except.error PluginError.FunctionInvalidParameter) ∧
    PluginError.FunctionInvalidParameter ≠ PluginError.FunctionNotFound := by
  refine ⟨by decide, by decide, by rfl, by decide⟩

/-- Claim C9 (amended): for every completed `execute` call (allocations
succeed, the execute result — even a successful one with a readable result
pointer — is computed), a missing `__collect` export makes `execute` return
`FunctionNotFound`, while a `__collect` export with a signature other than
`() -> ()` makes it return `FunctionInvalidParameter` (the case the
counterexample separates from the claim); in both cases the saved execute
result is discarded by the `?` operator.  The collector name is the
hard-coded literal `"__collect"`: the result of `execute` is independent of
the `PluginOptions` value, which has no collector-name field. -/
theorem execute_missing_collect_returns_function_not_found
    (exports : List (String × FuncSig)) (opts : PluginOptions) (mem : Mem)
    (key payload : List Nat) (malloc1 malloc2 : Except Trap (Nat × Mem))
    (execO : Except Trap (Nat × Mem)) (collectO : Except Trap Unit)
    (sd ed gd : PipeRead)
    (kp : Nat) (mem1 : Mem) (pp : Nat) (mem2 : Mem)
    (h1 : (allocate_string mem key malloc1).2 = some (kp, mem1))
    (h2 : (allocate_string mem1 payload malloc2).2 = some (pp, mem2))
    (hread : ∀ rp m3, execO = Except.ok (rp, m3) → (get_string m3 rp).isSome) :
    (lookupExport exports "__collect" = none →
      (execute exports opts mem key payload malloc1 malloc2 execO collectO
        sd ed gd).2 = some (Except.error PluginError.FunctionNotFound)) ∧
    (∀ s, lookupExport exports "__collect" = some s → s ≠ collectSig →
      (execute exports opts mem key payload malloc1 malloc2 execO collectO
        sd ed gd).2 =
        some (Except.error PluginError.FunctionInvalidParameter)) ∧
    ∀ opts2 : PluginOptions,
      execute exports opts2 mem key payload malloc1 malloc2 execO collectO
        sd ed gd =
      execute exports opts mem key payload malloc1 malloc2 execO collectO
        sd ed gd := by
  refine ⟨?_, ?_, ?_⟩
  · intro hmiss
    cases execO with
    | error t =>
      simp [execute, h1, h2, call_garbage_collector, helper_get_function, hmiss]
    | ok rm =>
      obtain ⟨rp, m3⟩ := rm
      obtain ⟨s, hs⟩ := Option.isSome_iff_exists.1 (hread rp m3 rfl)
      simp [execute, h1, h2, hs, call_garbage_collector, helper_get_function,
        hmiss]
  · intro sg hsome hne
    cases execO with
    | error t =>
      simp [execute, h1, h2, call_garbage_collector, helper_get_function,
        hsome, hne]
    | ok rm =>
      obtain ⟨rp, m3⟩ := rm
      obtain ⟨s, hs⟩ := Option.isSome_iff_exists.1 (hread rp m3 rfl)
      simp [execute, h1, h2, hs, call_garbage_collector, helper_get_function,
        hsome, hne]
  · intro opts2
    rfl

/-- Claim C9 witness: a module exporting only the execute function (no
`__collect`), with a successful guest execute producing readable result
"AB", still yields `FunctionNotFound`. -/
theorem execute_missing_collect_witness :
    lookupExport [("transform", executeSig)] "__collect" = none ∧
    get_string [2, 0, 0, 0, 65, 66] 4 = some [65, 66] ∧
    (execute [("transform", executeSig)] (PluginOptions.new "p" "f" "t")
      [0, 0, 0, 0, 0] [107] [112]
      (Except.ok (4, [0, 0, 0, 0, 0])) (Except.ok (0, [0, 0, 0, 0, 107]))
      (Except.ok (4, [2, 0, 0, 0, 65, 66])) (Except.ok ())
      (Except.ok []) (Except.ok []) (Except.ok [])).2 =
      some (Except.error PluginError.FunctionNotFound) :=
  ⟨by decide, by decide,
    (execute_missing_collect_returns_function_not_found [("transform", executeSig)]
      (PluginOptions.new "p" "f" "t") [0, 0, 0, 0, 0] [107] [112]
      (Except.ok (4, [0, 0, 0, 0, 0])) (Except.ok (0, [0, 0, 0, 0, 107]))
      (Except.ok (4, [2, 0, 0, 0, 65, 66])) (Except.ok ())
      (Except.ok []) (Except.ok []) (Except.ok [])
      4 [0, 0, 0, 0, 107] 0 [112, 0, 0, 0, 107]
      (by decide) (by decide)
      (fun rp m3 h => by cases h; decide)).1 (by decide)⟩

/-- Claim C8: an empty stdout drain is captured as absence (`none`), never
as an error; and the success or failure of a call is unaffected by the
stdout/stderr drains — `execute`, `run_init` and `init` return identical
traces and results for any drain outcomes, because drained text is only
logged. -/
theorem empty_stdout_absent_not_error :
    read_from_stdout (Except.ok []) = none ∧
    (∀ (exports : List (String × FuncSig)) (opts : PluginOptions) (mem : Mem)
      (key payload : List Nat) (malloc1 malloc2 execO : Except Trap (Nat × Mem))
      (collectO : Except Trap Unit) (sd sd2 ed ed2 gd gd2 : PipeRead),
      execute exports opts mem key payload malloc1 malloc2 execO collectO
        sd ed gd =
      execute exports opts mem key payload malloc1 malloc2 execO collectO
        sd2 ed2 gd2) ∧
    (∀ (exports : List (String × FuncSig)) (opts : PluginOptions) (mem : Mem)
      (config : List Nat) (mo : Except Trap (Nat × Mem))
      (io : Except Trap Unit) (sd sd2 ed ed2 : PipeRead),
      run_init exports opts mem config mo io sd ed =
      run_init exports opts mem config mo io sd2 ed2) ∧
    (∀ (exports : List (String × FuncSig)) (opts : PluginOptions) (mem : Mem)
      (config : List Nat) (so : Except Trap Mem)
      (ssd ssd2 sed sed2 : PipeRead) (mo : Except Trap (Nat × Mem))
      (io : Except Trap Unit) (sd sd2 ed ed2 : PipeRead),
      init exports opts mem config so ssd sed mo io sd ed =
      init exports opts mem config so ssd2 sed2 mo io sd2 ed2) := by
  refine ⟨rfl, ?_, ?_, ?_⟩ <;> intros <;> rfl

/-- Claim C10: `read_from_stdout` and `read_from_stderr` return either
`none` or the trimmed drain of the pipe: a pipe read failure is `none`
(never an error), a drain that trims to the empty string is `none`, and any
captured string is exactly the trimmed drain — hence itself free of leading
and trailing whitespace, and nonempty. -/
theorem read_pipes_trimmed_or_none :
    (∀ e, read_from_stdout (Except.error e) = none) ∧
    (∀ buf, trimChars buf = [] → read_from_stdout (Except.ok buf) = none) ∧
    (∀ buf s, read_from_stdout (Except.ok buf) = some s →
      s = trimChars buf ∧ trimChars s = s ∧ s ≠ []) ∧
    (∀ e, read_from_stderr (Except.error e) = none) ∧
    (∀ buf, trimChars buf = [] → read_from_stderr (Except.ok buf) = none) ∧
    (∀ buf s, read_from_stderr (Except.ok buf) = some s →
      s = trimChars buf ∧ trimChars s = s ∧ s ≠ []) := by
  refine ⟨fun e => rfl, ?_, ?_, fun e => rfl, ?_, ?_⟩
  · intro buf h
    simp [read_from_stdout, h]
  · intro buf s h
    simp only [read_from_stdout] at h
    by_cases hl : (trimChars buf).length > 0
    · rw [if_pos hl] at h
      have hs : s = trimChars buf := (Option.some.injEq _ _ ▸ h).symm
      refine ⟨hs, ?_, ?_⟩
      · rw [hs]
        exact trimChars_idem buf
      · rw [hs]
        intro hnil
        rw [hnil] at hl
        exact absurd hl (by simp)
    · rw [if_neg hl] at h
      exact absurd h (by simp)
  · intro buf h
    simp [read_from_stderr, h]
  · intro buf s h
    simp only [read_from_stderr] at h
    by_cases hl : (trimChars buf).length > 0
    · rw [if_pos hl] at h
      have hs : s = trimChars buf := (Option.some.injEq _ _ ▸ h).symm
      refine ⟨hs, ?_, ?_⟩
      · rw [hs]
        exact trimChars_idem buf
      · rw [hs]
        intro hnil
        rw [hnil] at hl
        exact absurd hl (by simp)
    · rw [if_neg hl] at h
      exact absurd h (by simp)

/-- Claim C10 witness: a whitespace-only stdout drain is reported absent; a
stderr drain " h" is captured as the trimmed, trim-stable, nonempty "h". -/
theorem read_pipes_trimmed_or_none_witness :
    trimChars [' '] = [] ∧
    read_from_stdout (Except.ok [' ']) = none ∧
    read_from_stderr (Except.ok [' ', 'h']) = some ['h'] ∧
    (['h'] = trimChars [' ', 'h'] ∧ trimChars ['h'] = ['h'] ∧
      (['h'] : List Char) ≠ []) :=
  ⟨by decide,
    read_pipes_trimmed_or_none.2.1 [' '] (by decide),
    by decide,
    read_pipes_trimmed_or_none.2.2.2.2.2 [' ', 'h'] ['h'] (by decide)⟩
